import Mathlib

/-!
A shallow embedding of the value-representation layer of the silt runtime
(Sources/Runtime: Box.h, Box.cpp; Sources/Ferrite: ManagedObject, Heap,
Errors) together with proofs about its copy, move and destroy operations.

Modelling conventions:
- raw memory is a function from byte addresses to byte contents;
- pointers are natural numbers (0 plays the role of the null pointer where
  nullability matters);
- a function that terminates the process instead of returning is modelled
  with `Except`: the `error` constructor carries the diagnostic text and
  means the process aborted, the `ok` constructor means control returned
  to the caller;
- the operation table (WitnessTable in Box.h) is a deep embedding: the
  source defines exactly one family of shared operations (trivialCopy,
  trivialMove, trivialDestroy in Box.cpp); any other table is external to
  this excerpt, so dispatching through it yields `none`.
-/

namespace Silt

/-- Box.h, struct TypeMetadata: per-type record with a name and a size in
bytes. The StringRef name is modelled as a Lean string. -/
structure TypeMetadata where
  name : String
  sizeInBytes : Nat
  deriving DecidableEq

/-- Box.h, struct WitnessTable: the per-type bundle of copy/move/destroy
operations, held by value in each Value. Box.cpp defines exactly one
shared implementation family (the trivial operations); a table for any
other type would hold functions external to this excerpt, so it is
represented opaquely by an identifier. -/
inductive WitnessTable where
  | trivial
  | custom (id : Nat)
  deriving DecidableEq

/-- Box.h, class Value: a type metadata reference, a witness table held by
value, and the raw storage pointer `value`. -/
structure Value where
  typeMetadata : TypeMetadata
  witnessTable : WitnessTable
  value : Nat
  deriving DecidableEq

/-- Box.h lines 47-48: the only constructor of Value. It initializes
typeMetadata and witnessTable and nothing else; the private field `value`
is left uninitialized, so its content is indeterminate. The extra
argument `indeterminate` supplies that indeterminate content: the
constructor body does not determine it, and the caller of the C++
constructor has no parameter through which to choose it. -/
def Value.construct (typeMetadata : TypeMetadata) (witnessTable : WitnessTable)
    (indeterminate : Nat) : Value :=
  { typeMetadata := typeMetadata, witnessTable := witnessTable, value := indeterminate }

/-- Box.h lines 75-77: getValue returns the raw storage pointer. -/
def Value.getValue (v : Value) : Nat :=
  v.value

/-- Box.h lines 50-52: getTypeMetadata returns the metadata reference. -/
def Value.getTypeMetadata (v : Value) : TypeMetadata :=
  v.typeMetadata

/-- Byte-addressed process memory: address to byte content. -/
abbrev Mem := Nat → Nat

/-- C memcpy of n bytes from src to dst, defined for non-overlapping
regions (every read is from the pre-call memory, which coincides with the
C behaviour exactly when the regions do not overlap; the theorems below
always assume disjointness). -/
def memcpy (m : Mem) (dst src n : Nat) : Mem :=
  fun a => if dst ≤ a ∧ a < dst + n then m (src + (a - dst)) else m a

/-- The n bytes stored at address a. -/
def readBytes (m : Mem) (a n : Nat) : List Nat :=
  (List.range n).map fun i => m (a + i)

/-- Box.cpp lines 32-36, trivialCopy: memcpy of dst metadata sizeInBytes
bytes from the storage of src to the storage of dst, returning dst. The
result pairs the post-call memory with the returned destination handle;
the Value structs themselves are not written. -/
def trivialCopy (m : Mem) (dst src : Value) : Mem × Value :=
  (memcpy m dst.getValue src.getValue dst.getTypeMetadata.sizeInBytes, dst)

/-- Box.cpp lines 47-49, trivialDestroy: empty body, memory is untouched. -/
def trivialDestroy (m : Mem) (v : Value) : Mem :=
  m

/-- Box.h lines 71-73, Value destroy method: witnessTable.destroy(this).
For the trivial table this is trivialDestroy; the body of a custom table
is outside this excerpt, hence none. -/
def Value.destroy (m : Mem) (self : Value) : Option Mem :=
  match self.witnessTable with
  | WitnessTable.trivial => some (trivialDestroy m self)
  | WitnessTable.custom _ => none

/-- Box.cpp lines 40-45, trivialMove: memcpy of dst metadata sizeInBytes
bytes from src storage to dst storage, then src->destroy() (dispatched
through the witness table of src), returning dst. -/
def trivialMove (m : Mem) (dst src : Value) : Option (Mem × Value) :=
  let m1 := memcpy m dst.getValue src.getValue dst.getTypeMetadata.sizeInBytes
  match Value.destroy m1 src with
  | some m2 => some (m2, dst)
  | none => none

/-- Box.h lines 63-65, Value copy method: witnessTable.copy(dst, this). -/
def Value.copy (m : Mem) (self dst : Value) : Option (Mem × Value) :=
  match self.witnessTable with
  | WitnessTable.trivial => some (trivialCopy m dst self)
  | WitnessTable.custom _ => none

/-- Box.h lines 67-69, Value move method: witnessTable.move(dst, this). -/
def Value.move (m : Mem) (self dst : Value) : Option (Mem × Value) :=
  match self.witnessTable with
  | WitnessTable.trivial => trivialMove m dst self
  | WitnessTable.custom _ => none

/-- Box.cpp lines 10-15, silt_copyValue: srcBox->copy(dstBox); return
dstBox. -/
def silt_copyValue (m : Mem) (dst src : Value) : Option (Mem × Value) :=
  Value.copy m src dst

/-- Box.cpp lines 17-22, silt_moveValue: srcBox->move(dstBox); return
dstBox. Note that this entry point performs no call other than the move
dispatch: any destroy of the source happens inside the move operation
itself. -/
def silt_moveValue (m : Mem) (dst src : Value) : Option (Mem × Value) :=
  Value.move m src dst

/-!
Instrumentation model: which operation-table slots a code path invokes.

Each entry of the trace is one invocation of a slot of the witness table
of the type (its copy, its move, or its destroy operation). In every code
path modelled below the argument of each destroy invocation is the source
Value, matching the instrumented-table scenarios of the specification.
The traces are computed for a Value bound to the trivial table, the one
operation family defined in Box.cpp.
-/

/-- One invocation of an operation-table slot. -/
inductive OpCall where
  | copyCall
  | moveCall
  | destroyCall
  deriving DecidableEq

/-- Box.cpp lines 47-49: the body of trivialDestroy invokes no table
slot. -/
def trivialDestroyCalls : List OpCall :=
  []

/-- Box.h lines 71-73: Value destroy dispatch, for the trivial table: one
invocation of the destroy slot, plus whatever trivialDestroy itself
invokes. -/
def destroyDispatchCalls : List OpCall :=
  OpCall.destroyCall :: trivialDestroyCalls

/-- Box.cpp lines 32-36: the body of trivialCopy performs a memcpy and
invokes no table slot. -/
def trivialCopyCalls : List OpCall :=
  []

/-- Box.cpp lines 40-45: the body of trivialMove performs a memcpy and
then calls src->destroy(), i.e. one destroy dispatch on the source. -/
def trivialMoveCalls : List OpCall :=
  destroyDispatchCalls

/-- Box.h lines 63-65: Value copy dispatch for the trivial table. -/
def copyDispatchCalls : List OpCall :=
  OpCall.copyCall :: trivialCopyCalls

/-- Box.h lines 67-69: Value move dispatch for the trivial table. -/
def moveDispatchCalls : List OpCall :=
  OpCall.moveCall :: trivialMoveCalls

/-- Box.cpp lines 17-22: silt_moveValue performs exactly one call,
srcBox->move(dstBox). -/
def silt_moveValueCalls : List OpCall :=
  moveDispatchCalls

/-- Box.cpp lines 10-15: silt_copyValue performs exactly one call,
srcBox->copy(dstBox). -/
def silt_copyValueCalls : List OpCall :=
  copyDispatchCalls

/-- Box.h lines 58-61: initializeWithTake performs value->move(this) and
then value->destroy(), where `value` is the source being taken from. -/
def initializeWithTakeCalls : List OpCall :=
  moveDispatchCalls ++ destroyDispatchCalls

/-!
The Ferrite library: ManagedObject, the empty-box singleton, the heap
wrapper and the fatal-error reporter.
-/

/-- ManagedObject.h line 19, SiltCopyFunction: a closure from a value
pointer to a value pointer. -/
abbrev SiltCopyFunction := Nat → Nat

/-- ManagedObject.h line 23, SiltDestroyFunction: a closure consuming a
value pointer. -/
abbrev SiltDestroyFunction := Nat → Unit

/-- ManagedObject.h lines 29-48: a copy closure, a destroy closure, a
pointer to the type metadata, and a pointer to the owned value. -/
structure ManagedObject where
  copyImpl : SiltCopyFunction
  destroyImpl : SiltDestroyFunction
  metadata : Nat
  value : Nat

/-- ManagedObject.h lines 41-44, the copy method: the body is a single
return of ManagedObject(copyImpl, destroyImpl, metadata,
copyImpl(this->value)) and writes no field of *this. The result pairs
the post-call state of *this with the returned object. -/
def ManagedObject.copy (self : ManagedObject) : ManagedObject × ManagedObject :=
  (self, { copyImpl := self.copyImpl, destroyImpl := self.destroyImpl,
           metadata := self.metadata, value := self.copyImpl self.value })

/-- The raw stored fields of the static _SiltEmptyBox object
(ManagedObject.cpp lines 14-23): an OpaqueMetadata header whose four
members were all initialized from null (line 18). Each member is
modelled as the pointer bits it stores; 0 is null. -/
structure EmptyBoxHeader where
  copyImplPtr : Nat
  destroyImplPtr : Nat
  metadataPtr : Nat
  valuePtr : Nat
  deriving DecidableEq

/-- ManagedObject.cpp lines 18-23: the initial contents of the singleton
_EmptyBoxStorage, all four header members null. -/
def emptyBoxInit : EmptyBoxHeader :=
  { copyImplPtr := 0, destroyImplPtr := 0, metadataPtr := 0, valuePtr := 0 }

/-- The fixed address of the static _EmptyBoxStorage object. Statics have
one process-wide address; any nonzero constant models it. -/
def emptyBoxAddr : Nat :=
  1

/-- The mutable process state the Ferrite entry points can touch: the
contents of the _EmptyBoxStorage singleton, the reference count that the
disabled swift_retain call at ManagedObject.cpp line 29 would increment,
and the number of heap objects allocated so far. -/
structure FerriteWorld where
  emptyBox : EmptyBoxHeader
  emptyBoxRetainCount : Nat
  allocCount : Nat
  deriving DecidableEq

/-- ManagedObject.cpp lines 27-31, silt_allocEmptyBox: returns the
address of the static _EmptyBoxStorage. The retain call on line 29 is
commented out, and the body allocates nothing and writes nothing, so the
world is returned unchanged. -/
def silt_allocEmptyBox (w : FerriteWorld) : FerriteWorld × Nat :=
  (w, emptyBoxAddr)

/-- Errors.cpp lines 12-13: the bytes silt::crash writes to stderr,
fputs(message) followed by fputc of a newline. -/
def crashOutput (message : String) : String :=
  message ++ "\n"

/-- Errors.cpp lines 11-15, silt::crash: writes the diagnostic and then
calls abort. The error constructor carries the diagnostic and means the
process terminated; an ok result would mean control returned to the
caller, which never happens. -/
def crash (message : String) : Except String Unit :=
  Except.error (crashOutput message)

/-- Heap.cpp lines 12-18, silt_alloc: ptr = malloc(bytes); if null,
silt::crash("silt_alloc failed to allocate memory"); otherwise return
ptr. The behaviour of malloc is a parameter: for a request of n bytes it
yields either none (the null pointer) or some nonzero address of a fresh
n-byte block. -/
def silt_alloc (malloc : Nat → Option Nat) (bytes : Nat) : Except String Nat :=
  match malloc bytes with
  | none => Except.error (crashOutput "silt_alloc failed to allocate memory")
  | some p => Except.ok p

/-!
Helper lemmas about memcpy and readBytes.
-/

theorem memcpy_inside (m : Mem) (d sr n i : Nat) (h : i < n) :
    memcpy m d sr n (d + i) = m (sr + i) := by
  have hc : d ≤ d + i ∧ d + i < d + n := by omega
  have hi : d + i - d = i := by omega
  simp [memcpy, hc, hi]

theorem memcpy_outside (m : Mem) (d sr n a : Nat)
    (h : ¬ (d ≤ a ∧ a < d + n)) : memcpy m d sr n a = m a := by
  simp only [memcpy, if_neg h]

theorem readBytes_memcpy (m : Mem) (d sr n : Nat) :
    readBytes (memcpy m d sr n) d n = readBytes m sr n := by
  unfold readBytes
  refine List.map_congr_left ?_
  intro i hi
  exact memcpy_inside m d sr n i (List.mem_range.mp hi)

theorem readBytes_memcpy_outside (m : Mem) (d sr n a k : Nat)
    (h : ∀ i, i < k → ¬ (d ≤ a + i ∧ a + i < d + n)) :
    readBytes (memcpy m d sr n) a k = readBytes m a k := by
  unfold readBytes
  refine List.map_congr_left ?_
  intro i hi
  exact memcpy_outside m d sr n (a + i) (h i (List.mem_range.mp hi))

theorem trivialCopy_mem (m : Mem) (dst src : Value) (s : Nat)
    (hd : dst.getTypeMetadata.sizeInBytes = s) :
    (trivialCopy m dst src).1 = memcpy m dst.getValue src.getValue s := by
  simp [trivialCopy, hd]

/-!
The claims.
-/

/-- Claim C3: for a Value using the trivial operation table with matching
size-s metadata on source and destination, the trivial copy operation
copies exactly the s bytes of source storage into destination storage and
changes no other byte; the trivial destroy operation changes nothing; so
after copying a value holding bytes B into a fresh (disjoint) buffer and
then destroying the original, the storage of the copy still holds exactly
B. -/
theorem C3_trivial_copy_then_destroy_preserves_bytes
    (m : Mem) (dst src : Value) (s : Nat)
    (hd : dst.getTypeMetadata.sizeInBytes = s)
    (hs : src.getTypeMetadata.sizeInBytes = s)
    (hdisj : dst.getValue + s ≤ src.getValue ∨ src.getValue + s ≤ dst.getValue) :
    readBytes (trivialCopy m dst src).1 dst.getValue s = readBytes m src.getValue s ∧
    (∀ a, ¬ (dst.getValue ≤ a ∧ a < dst.getValue + s) → (trivialCopy m dst src).1 a = m a) ∧
    (∀ mm v, trivialDestroy mm v = mm) ∧
    readBytes (trivialDestroy (trivialCopy m dst src).1 src) dst.getValue s =
      readBytes m src.getValue s := by
  have h1 := trivialCopy_mem m dst src s hd
  refine ⟨?_, ?_, fun mm v => rfl, ?_⟩
  · rw [h1]
    exact readBytes_memcpy m dst.getValue src.getValue s
  · intro a ha
    rw [h1]
    exact memcpy_outside m dst.getValue src.getValue s a ha
  · show readBytes (trivialCopy m dst src).1 dst.getValue s = readBytes m src.getValue s
    rw [h1]
    exact readBytes_memcpy m dst.getValue src.getValue s

/-- Claim C3, witness at the concrete scenario of the specification: a
16-byte pair-of-integers buffer holding (3, 4) at address 0, copied into
a fresh buffer at address 16. -/
theorem C3_witness :
    ((⟨⟨"PairInt64", 16⟩, WitnessTable.trivial, 16⟩ : Value).getTypeMetadata.sizeInBytes = 16) ∧
    ((⟨⟨"PairInt64", 16⟩, WitnessTable.trivial, 0⟩ : Value).getTypeMetadata.sizeInBytes = 16) ∧
    ((⟨⟨"PairInt64", 16⟩, WitnessTable.trivial, 16⟩ : Value).getValue + 16 ≤
        (⟨⟨"PairInt64", 16⟩, WitnessTable.trivial, 0⟩ : Value).getValue ∨
      (⟨⟨"PairInt64", 16⟩, WitnessTable.trivial, 0⟩ : Value).getValue + 16 ≤
        (⟨⟨"PairInt64", 16⟩, WitnessTable.trivial, 16⟩ : Value).getValue) ∧
    (readBytes (trivialCopy (fun a => if a = 0 then 3 else if a = 8 then 4 else 0)
          (⟨⟨"PairInt64", 16⟩, WitnessTable.trivial, 16⟩ : Value)
          (⟨⟨"PairInt64", 16⟩, WitnessTable.trivial, 0⟩ : Value)).1 16 16 =
        readBytes (fun a => if a = 0 then 3 else if a = 8 then 4 else 0) 0 16 ∧
      (∀ a, ¬ (16 ≤ a ∧ a < 16 + 16) →
        (trivialCopy (fun a => if a = 0 then 3 else if a = 8 then 4 else 0)
          (⟨⟨"PairInt64", 16⟩, WitnessTable.trivial, 16⟩ : Value)
          (⟨⟨"PairInt64", 16⟩, WitnessTable.trivial, 0⟩ : Value)).1 a =
          (fun a => if a = 0 then 3 else if a = 8 then 4 else 0 : Mem) a) ∧
      (∀ mm v, trivialDestroy mm v = mm) ∧
      readBytes (trivialDestroy
          (trivialCopy (fun a => if a = 0 then 3 else if a = 8 then 4 else 0)
            (⟨⟨"PairInt64", 16⟩, WitnessTable.trivial, 16⟩ : Value)
            (⟨⟨"PairInt64", 16⟩, WitnessTable.trivial, 0⟩ : Value)).1
          (⟨⟨"PairInt64", 16⟩, WitnessTable.trivial, 0⟩ : Value)) 16 16 =
        readBytes (fun a => if a = 0 then 3 else if a = 8 then 4 else 0) 0 16) :=
  ⟨by decide, by decide, by decide,
    C3_trivial_copy_then_destroy_preserves_bytes
      (fun a => if a = 0 then 3 else if a = 8 then 4 else 0)
      (⟨⟨"PairInt64", 16⟩, WitnessTable.trivial, 16⟩ : Value)
      (⟨⟨"PairInt64", 16⟩, WitnessTable.trivial, 0⟩ : Value) 16
      (by decide) (by decide) (by decide)⟩

/-- Claim C4: for every Value bound to the trivial operation table (the
one copy implementation of this excerpt) and every valid, non-aliasing,
uninitialized destination of the same size, the copy entry point
silt_copyValue leaves the source externally unchanged: the operation
returns the destination handle with its descriptor, table and storage
pointer intact, writes only the destination region (so the storage bytes
of the source are unchanged), and the two storages are still disjoint
afterwards. -/
theorem C4_copy_leaves_source_unchanged
    (m : Mem) (dst src : Value) (s : Nat)
    (hwt : src.witnessTable = WitnessTable.trivial)
    (hd : dst.getTypeMetadata.sizeInBytes = s)
    (hs : src.getTypeMetadata.sizeInBytes = s)
    (hdisj : dst.getValue + s ≤ src.getValue ∨ src.getValue + s ≤ dst.getValue) :
    silt_copyValue m dst src = some ((trivialCopy m dst src).1, dst) ∧
    readBytes (trivialCopy m dst src).1 src.getValue s = readBytes m src.getValue s ∧
    (∀ a, ¬ (dst.getValue ≤ a ∧ a < dst.getValue + s) → (trivialCopy m dst src).1 a = m a) ∧
    (dst.getValue + s ≤ src.getValue ∨ src.getValue + s ≤ dst.getValue) := by
  have h1 := trivialCopy_mem m dst src s hd
  refine ⟨?_, ?_, ?_, hdisj⟩
  · simp [silt_copyValue, Value.copy, hwt, trivialCopy]
  · rw [h1]
    refine readBytes_memcpy_outside m dst.getValue src.getValue s src.getValue s ?_
    intro i hi
    omega
  · intro a ha
    rw [h1]
    exact memcpy_outside m dst.getValue src.getValue s a ha

/-- Claim C4, witness: two disjoint 8-byte buffers at addresses 0 and 32,
source bound to the trivial table. -/
theorem C4_witness :
    ((⟨⟨"Octet", 8⟩, WitnessTable.trivial, 0⟩ : Value).witnessTable = WitnessTable.trivial) ∧
    ((⟨⟨"Octet", 8⟩, WitnessTable.trivial, 32⟩ : Value).getTypeMetadata.sizeInBytes = 8) ∧
    ((⟨⟨"Octet", 8⟩, WitnessTable.trivial, 0⟩ : Value).getTypeMetadata.sizeInBytes = 8) ∧
    (silt_copyValue (fun a => a + 1)
        (⟨⟨"Octet", 8⟩, WitnessTable.trivial, 32⟩ : Value)
        (⟨⟨"Octet", 8⟩, WitnessTable.trivial, 0⟩ : Value) =
      some ((trivialCopy (fun a => a + 1)
        (⟨⟨"Octet", 8⟩, WitnessTable.trivial, 32⟩ : Value)
        (⟨⟨"Octet", 8⟩, WitnessTable.trivial, 0⟩ : Value)).1,
        (⟨⟨"Octet", 8⟩, WitnessTable.trivial, 32⟩ : Value)) ∧
      readBytes (trivialCopy (fun a => a + 1)
        (⟨⟨"Octet", 8⟩, WitnessTable.trivial, 32⟩ : Value)
        (⟨⟨"Octet", 8⟩, WitnessTable.trivial, 0⟩ : Value)).1 0 8 =
        readBytes (fun a => a + 1) 0 8 ∧
      (∀ a, ¬ (32 ≤ a ∧ a < 32 + 8) →
        (trivialCopy (fun a => a + 1)
          (⟨⟨"Octet", 8⟩, WitnessTable.trivial, 32⟩ : Value)
          (⟨⟨"Octet", 8⟩, WitnessTable.trivial, 0⟩ : Value)).1 a = a + 1) ∧
      (32 + 8 ≤ 0 ∨ 0 + 8 ≤ 32)) :=
  ⟨by decide, by decide, by decide,
    C4_copy_leaves_source_unchanged (fun a => a + 1)
      (⟨⟨"Octet", 8⟩, WitnessTable.trivial, 32⟩ : Value)
      (⟨⟨"Octet", 8⟩, WitnessTable.trivial, 0⟩ : Value) 8
      (by decide) (by decide) (by decide) (by decide)⟩

/-- Claim C9: for Values bound to the trivial operation table (with the
matching-metadata precondition of the claim), the trivial move operation
is extensionally equal to the trivial copy operation — it produces
exactly the same memory and the same returned destination handle —
because the destroy that trivialMove dispatches on the source is the
trivial destroy, which changes nothing. -/
theorem C9_trivialMove_eq_trivialCopy
    (m : Mem) (dst src : Value)
    (hwt : src.witnessTable = WitnessTable.trivial)
    (hmd : src.typeMetadata = dst.typeMetadata) :
    trivialMove m dst src = some (trivialCopy m dst src) ∧
    (∀ mm, trivialDestroy mm src = mm) := by
  constructor
  · simp [trivialMove, trivialCopy, Value.destroy, hwt, trivialDestroy]
  · intro mm
    rfl

/-- Claim C9, witness: two trivial-table Values of the same 4-byte type
over the zero memory. -/
theorem C9_witness :
    ((⟨⟨"Quad", 4⟩, WitnessTable.trivial, 0⟩ : Value).witnessTable = WitnessTable.trivial) ∧
    ((⟨⟨"Quad", 4⟩, WitnessTable.trivial, 0⟩ : Value).typeMetadata =
      (⟨⟨"Quad", 4⟩, WitnessTable.trivial, 8⟩ : Value).typeMetadata) ∧
    (trivialMove (fun _ => 0)
        (⟨⟨"Quad", 4⟩, WitnessTable.trivial, 8⟩ : Value)
        (⟨⟨"Quad", 4⟩, WitnessTable.trivial, 0⟩ : Value) =
      some (trivialCopy (fun _ => 0)
        (⟨⟨"Quad", 4⟩, WitnessTable.trivial, 8⟩ : Value)
        (⟨⟨"Quad", 4⟩, WitnessTable.trivial, 0⟩ : Value)) ∧
      (∀ mm, trivialDestroy mm (⟨⟨"Quad", 4⟩, WitnessTable.trivial, 0⟩ : Value) = mm)) :=
  ⟨by decide, by decide,
    C9_trivialMove_eq_trivialCopy (fun _ => 0)
      (⟨⟨"Quad", 4⟩, WitnessTable.trivial, 8⟩ : Value)
      (⟨⟨"Quad", 4⟩, WitnessTable.trivial, 0⟩ : Value)
      (by decide) (by decide)⟩

/-- Claim C1, counterexample: the claim asserts that the boundary move
operation (silt_moveValue or the moveInto path initializeWithTake)
invokes the destroy operation of the type on the source exactly once.
For a Value of the type bound to the trivial operation table — a type
the source itself provides — initializeWithTake invokes the destroy
operation on the source twice: once inside trivialMove (Box.cpp line 43)
and once directly (Box.h line 60). -/
theorem C1_counterexample :
    initializeWithTakeCalls.count OpCall.destroyCall = 2 ∧
    initializeWithTakeCalls.count OpCall.destroyCall ≠ 1 := by
  decide

/-- Claim C1 (amended): for a Value of the type bound to the trivial
operation table, the boundary entry point silt_moveValue invokes the move
operation exactly once, the destroy operation on the source exactly once
(that single destroy is issued from inside trivialMove, not by
silt_moveValue itself), and the copy operation never; the moveInto path
initializeWithTake likewise invokes the move operation exactly once and
the copy operation never, but invokes the destroy operation on the
source twice. -/
theorem C1_move_invocation_counts :
    silt_moveValueCalls.count OpCall.moveCall = 1 ∧
    silt_moveValueCalls.count OpCall.destroyCall = 1 ∧
    silt_moveValueCalls.count OpCall.copyCall = 0 ∧
    initializeWithTakeCalls.count OpCall.moveCall = 1 ∧
    initializeWithTakeCalls.count OpCall.destroyCall = 2 ∧
    initializeWithTakeCalls.count OpCall.copyCall = 0 := by
  decide

/-- Claim C2, evaluation at the failing input: the only constructor of
Value (Box.h lines 47-48) takes a metadata reference and a witness table
but no storage argument, and leaves the private field `value`
uninitialized. Consequently getValue after construction is not
determined by anything the caller passed: two constructions from
identical caller-visible arguments can disagree on getValue, so getValue
cannot equal caller-supplied storage. -/
theorem C2_construct_leaves_storage_unbound :
    (Value.construct ⟨"Pair", 16⟩ WitnessTable.trivial 0).getValue ≠
    (Value.construct ⟨"Pair", 16⟩ WitnessTable.trivial 1).getValue := by
  decide

/-- Claim C5: for every Boxed object b, the copy method returns a new
object whose copy closure, destroy closure and type-metadata pointer are
the same as those of b and whose owned value is exactly the result of
applying the copy closure of b to the current value of b; the post-call
state of b itself is b unchanged. -/
theorem C5_managed_object_copy (b : ManagedObject) :
    (ManagedObject.copy b).1 = b ∧
    (ManagedObject.copy b).2.copyImpl = b.copyImpl ∧
    (ManagedObject.copy b).2.destroyImpl = b.destroyImpl ∧
    (ManagedObject.copy b).2.metadata = b.metadata ∧
    (ManagedObject.copy b).2.value = b.copyImpl b.value :=
  ⟨rfl, rfl, rfl, rfl, rfl⟩

/-- Claim C6: every call of silt_allocEmptyBox returns the address of the
same shared singleton _EmptyBoxStorage object; two successive calls from
any world yield pointer-identical results, and neither call allocates a
new object. -/
theorem C6_empty_box_is_singleton (w : FerriteWorld) :
    (silt_allocEmptyBox w).2 = emptyBoxAddr ∧
    (silt_allocEmptyBox (silt_allocEmptyBox w).1).2 = (silt_allocEmptyBox w).2 ∧
    (silt_allocEmptyBox w).1.allocCount = w.allocCount ∧
    (silt_allocEmptyBox (silt_allocEmptyBox w).1).1.allocCount = w.allocCount :=
  ⟨rfl, rfl, rfl, rfl⟩

/-- Claim C10: silt_allocEmptyBox does not mutate the shared empty-box
singleton: the stored header fields of _EmptyBoxStorage are unchanged,
the reference count that the disabled retain call would bump is
unchanged, and indeed the whole world is returned exactly as it was. -/
theorem C10_acquire_does_not_mutate_singleton (w : FerriteWorld) :
    (silt_allocEmptyBox w).1.emptyBox = w.emptyBox ∧
    (silt_allocEmptyBox w).1.emptyBoxRetainCount = w.emptyBoxRetainCount ∧
    (silt_allocEmptyBox w).1 = w :=
  ⟨rfl, rfl, rfl⟩

/-- Claim C8: for every message, silt::crash writes the message followed
by a newline to the diagnostic stream — a non-empty diagnostic even for
the empty message — and terminates the process, never returning control
to its caller. -/
theorem C8_crash_terminates_with_diagnostic (message : String) :
    crash message = Except.error (crashOutput message) ∧
    crashOutput message = message ++ "\n" ∧
    crashOutput message ≠ "" ∧
    ∀ u, crash message ≠ Except.ok u := by
  refine ⟨rfl, rfl, ?_, ?_⟩
  · intro h
    have h2 := congrArg String.length h
    have h3 : ("\n" : String).length = 1 := rfl
    have h4 : ("" : String).length = 0 := rfl
    rw [crashOutput, String.length_append, h3, h4] at h2
    omega
  · intro u h
    exact Except.noConfusion h

/-- Claim C7: for every request of n > 0 bytes, silt_alloc either returns
a non-null pointer or, when malloc fails, escalates through the
fatal-error reporter with a non-empty diagnostic and never returns; in no
case does it hand a null result back to its caller. The hypothesis on
malloc is its contract: a successful allocation is non-null. -/
theorem C7_alloc_never_returns_null (malloc : Nat → Option Nat) (n : Nat)
    (hn : 0 < n) (hm : ∀ p, malloc n = some p → p ≠ 0) :
    ((∃ p, silt_alloc malloc n = Except.ok p ∧ p ≠ 0) ∨
      silt_alloc malloc n =
        Except.error (crashOutput "silt_alloc failed to allocate memory")) ∧
    (∀ p, silt_alloc malloc n = Except.ok p → p ≠ 0) ∧
    (malloc n = none → silt_alloc malloc n =
      Except.error (crashOutput "silt_alloc failed to allocate memory")) ∧
    crashOutput "silt_alloc failed to allocate memory" ≠ "" := by
  refine ⟨?_, ?_, ?_, by decide⟩
  · cases hres : malloc n with
    | none => right; simp [silt_alloc, hres]
    | some p =>
        left
        exact ⟨p, by simp [silt_alloc, hres], hm p hres⟩
  · intro p hp
    cases hres : malloc n with
    | none => simp [silt_alloc, hres] at hp
    | some q =>
        simp [silt_alloc, hres] at hp
        exact hp ▸ hm q hres
  · intro hres
    simp [silt_alloc, hres]

/-- Claim C7, witness: a malloc that returns address 4 for a one-byte
request. -/
theorem C7_witness :
    0 < 1 ∧
    (∀ p, (fun _ => some 4 : Nat → Option Nat) 1 = some p → p ≠ 0) ∧
    (((∃ p, silt_alloc (fun _ => some 4) 1 = Except.ok p ∧ p ≠ 0) ∨
      silt_alloc (fun _ => some 4) 1 =
        Except.error (crashOutput "silt_alloc failed to allocate memory")) ∧
    (∀ p, silt_alloc (fun _ => some 4) 1 = Except.ok p → p ≠ 0) ∧
    ((fun _ => some 4 : Nat → Option Nat) 1 = none → silt_alloc (fun _ => some 4) 1 =
      Except.error (crashOutput "silt_alloc failed to allocate memory")) ∧
    crashOutput "silt_alloc failed to allocate memory" ≠ "") :=
  ⟨by decide,
    by intro p hp; simp at hp; omega,
    C7_alloc_never_returns_null (fun _ => some 4) 1 (by decide)
      (by intro p hp; simp at hp; omega)⟩

end Silt
